import Mathlib

/-!
Shallow embedding of the 3D viewport engine of the screenspecs repository
(`src/js/ScreenVisualizer3D.js`) together with proofs about it.

Modelling conventions:
* JS numbers appearing in the screen specifications, camera bookkeeping and
  zoom state are modelled as exact rationals (`ℚ`); quantities obtained
  through `Math.sqrt`, `Math.acos`, `Math.atan2` or `Math.PI` are modelled
  as real numbers (`ℝ`).
* JS `x || d` on a number is modelled by `jsOrDefault` (`0` is falsy).
* The one place where the source can produce a `NaN` angle (an unguarded
  `acos(offset.y / radius)` with `radius = 0`, i.e. `0/0`) is modelled with
  an `Option`-valued polar angle, `none` standing for `NaN`.
* The configuration constants come from `config.js`
  (`src/unnamed/part_002`): `CONFIG.PHYSICS.INCHES_TO_MM = 25.4` and
  `CONFIG.DEFAULTS.PRESET_DISTANCE = 600`.  Functions that read
  `CONFIG.DEFAULTS.PRESET_DISTANCE` take it as an explicit
  `defaultDistance` parameter, instantiated at `PRESET_DISTANCE` for
  concrete program traces.
-/

namespace ScreenVis3D

/-- A screen specification as consumed by the visualizer (`screenData` in the
source): diagonal in inches, resolution in pixels, viewing distance in mm,
curvature radius in mm (`none` = flat), scaling percent and the screen
number. -/
structure ScreenData where
  diagonal : ℚ
  resolutionW : ℚ
  resolutionH : ℚ
  distance : ℚ
  curvature : Option ℚ
  scaling : ℚ
  screenNumber : ℕ
deriving DecidableEq

/-- JS `x || d` on numbers: `0` is falsy and falls back to the default. -/
def jsOrDefault (x d : ℚ) : ℚ := if x = 0 then d else x

/-- JS `screenData.curvature || null` (line 340): a zero curvature counts as
flat. -/
def jsCurvatureOrNull (c : Option ℚ) : Option ℚ :=
  match c with
  | none => none
  | some x => if x = 0 then none else some x

/-- `CONFIG.PHYSICS.INCHES_TO_MM` from `config.js`
(`src/unnamed/part_002`): `INCHES_TO_MM: 25.4`. -/
def INCHES_TO_MM : ℚ := 254 / 10

/-- `CONFIG.DEFAULTS.PRESET_DISTANCE` from `config.js`
(`src/unnamed/part_002`): `PRESET_DISTANCE: 600` (millimeters). -/
def PRESET_DISTANCE : ℚ := 600

/-- One rectangular box segment of a flat border frame: the `BoxGeometry`
size and the mesh position used in `createScreenBorder`. -/
structure BoxSeg (K : Type) where
  sizeX : K
  sizeY : K
  sizeZ : K
  posX : K
  posY : K
  posZ : K

/-- Arc parameters computed for a curved panel or border (`radiusMeters`,
`arcAngle`, `segments` in the source; `thetaStart` is `π - arcAngle/2` and is
not recorded here). -/
structure ArcParams (K : Type) where
  radiusMeters : K
  arcAngle : K
  segments : ℤ

/-- Shape payload of the border frame built by `createScreenBorder`: four
box segments for a flat screen, or an arc-swept box section (with its inner
and outer radii) for a curved screen. -/
inductive BorderShape (K : Type) where
  | flat (top bottom left right : BoxSeg K)
  | curved (arc : ArcParams K) (innerRadius outerRadius : K)

/-- Descriptor of the border frame built by `createScreenBorder`
(lines 371-560). -/
structure BorderDesc (K : Type) where
  thickness : K
  depth : K
  shape : BorderShape K

/-- `createScreenBorder(screenWidth, screenHeight, screenColor, curvature)`
(lines 371-560), with the colour/material handling omitted.  Note the
source computes `borderThickness = screenHeight * 0.01` (line 373). -/
def createScreenBorder {K : Type} [LinearOrderedField K] [FloorRing K]
    (screenWidth screenHeight : K) (curvature : Option K) : BorderDesc K :=
  let borderThickness := screenHeight * (1 / 100)
  let borderDepth := borderThickness * (1 / 2)
  match curvature with
  | none =>
    { thickness := borderThickness
      depth := borderDepth
      shape := BorderShape.flat
        ⟨screenWidth, borderThickness, borderDepth,
          0, (screenHeight + borderThickness) / 2, 0⟩
        ⟨screenWidth, borderThickness, borderDepth,
          0, -((screenHeight + borderThickness) / 2), 0⟩
        ⟨borderThickness, screenHeight + borderThickness * 2, borderDepth,
          -((screenWidth + borderThickness) / 2), 0, 0⟩
        ⟨borderThickness, screenHeight + borderThickness * 2, borderDepth,
          (screenWidth + borderThickness) / 2, 0, 0⟩ }
  | some curv =>
    let radiusMeters := curv / 1000
    let arcAngle := screenWidth / radiusMeters
    let segments := max 32 ⌊arcAngle * 32⌋
    { thickness := borderThickness
      depth := borderDepth
      shape := BorderShape.curved ⟨radiusMeters, arcAngle, segments⟩
        radiusMeters (radiusMeters + borderDepth) }

/-- Descriptor of the translucent centre panel built by `createCenterPanel`
(lines 562-621): a plane for a flat screen, a cylinder arc for a curved
one. -/
inductive PanelDesc (K : Type) where
  | flat (width height : K)
  | curved (arc : ArcParams K) (height : K)

/-- `createCenterPanel(screenWidth, screenHeight, screenColor, curvature)`
(lines 562-621), with the colour/material handling omitted. -/
def createCenterPanel {K : Type} [LinearOrderedField K] [FloorRing K]
    (screenWidth screenHeight : K) (curvature : Option K) : PanelDesc K :=
  match curvature with
  | none => PanelDesc.flat screenWidth screenHeight
  | some curv =>
    let radiusMeters := curv / 1000
    let arcAngle := screenWidth / radiusMeters
    let segments := max 32 ⌊arcAngle * 32⌋
    PanelDesc.curved ⟨radiusMeters, arcAngle, segments⟩ screenHeight

/-- Arc parameters of a panel descriptor, when curved. -/
def PanelDesc.arcParams? {K : Type} : PanelDesc K → Option (ArcParams K)
  | PanelDesc.flat _ _ => none
  | PanelDesc.curved arc _ => some arc

/-- Arc parameters of a border descriptor, when curved. -/
def BorderDesc.arcParams? {K : Type} (b : BorderDesc K) : Option (ArcParams K) :=
  match b.shape with
  | BorderShape.flat _ _ _ _ => none
  | BorderShape.curved arc _ _ => some arc

/-- The arc parameters that both `createCenterPanel` (lines 578-580) and
`createScreenBorder` (lines 413-415) compute for a curved screen:
`radiusMeters = curvature/1000`, `arcAngle = screenWidth/radiusMeters`,
`segments = max(32, floor(arcAngle * 32))`. -/
noncomputable def curvedArcParams (screenWidth curvature : ℝ) : ArcParams ℝ :=
  ⟨curvature / 1000, screenWidth / (curvature / 1000),
    max 32 ⌊screenWidth / (curvature / 1000) * 32⌋⟩

/-- `ratio = screenData.resolution[0] / screenData.resolution[1]`
(line 326). -/
noncomputable def screenRatio (resW resH : ℚ) : ℝ := (resW : ℝ) / (resH : ℝ)

/-- `heightInches = screenData.diagonal / Math.sqrt(ratio ** 2 + 1)`
(line 327). -/
noncomputable def screenHeightInches (diagonal resW resH : ℚ) : ℝ :=
  (diagonal : ℝ) / Real.sqrt (screenRatio resW resH ^ 2 + 1)

/-- `widthInches = ratio * heightInches` (line 328). -/
noncomputable def screenWidthInches (diagonal resW resH : ℚ) : ℝ :=
  screenRatio resW resH * screenHeightInches diagonal resW resH

/-- `widthMeters = (widthInches * CONFIG.PHYSICS.INCHES_TO_MM) / 1000`
(line 331). -/
noncomputable def screenWidthMeters (diagonal resW resH : ℚ) : ℝ :=
  screenWidthInches diagonal resW resH * (INCHES_TO_MM : ℝ) / 1000

/-- `heightMeters = (heightInches * CONFIG.PHYSICS.INCHES_TO_MM) / 1000`
(line 332). -/
noncomputable def screenHeightMeters (diagonal resW resH : ℚ) : ℝ :=
  screenHeightInches diagonal resW resH * (INCHES_TO_MM : ℝ) / 1000

/-- The meshes a single screen contributes to the scene. -/
structure PlacedScreen where
  widthMeters : ℝ
  heightMeters : ℝ
  screenNumber : ℕ
  border : BorderDesc ℝ
  centerPanel : PanelDesc ℝ
  posZ : ℚ

/-- `createSingleScreen(screenData, index)` (lines 324-369).  The source
performs no input validation and contains no `throw`; the `Except` return
type records that no error path exists: every input yields `Except.ok`.
`defaultDistance` stands for `CONFIG.DEFAULTS.PRESET_DISTANCE`, which
`config.js` sets to 600 (`PRESET_DISTANCE` above); it is kept as a
parameter so the theorems hold for any configured value. -/
noncomputable def createSingleScreen (defaultDistance : ℚ)
    (screenData : ScreenData) (index : ℕ) : Except String PlacedScreen :=
  let widthMeters := screenWidthMeters screenData.diagonal
    screenData.resolutionW screenData.resolutionH
  let heightMeters := screenHeightMeters screenData.diagonal
    screenData.resolutionW screenData.resolutionH
  let screenNumber := if screenData.screenNumber = 0 then index + 1
    else screenData.screenNumber
  let curvature := (jsCurvatureOrNull screenData.curvature).map
    (fun q => (q : ℝ))
  let border := createScreenBorder widthMeters heightMeters curvature
  let centerPanel := createCenterPanel widthMeters heightMeters curvature
  let distanceMeters : ℚ :=
    -(jsOrDefault screenData.distance defaultDistance) / 1000
  let zOffset : ℚ := index * (1 / 1000)
  Except.ok
    { widthMeters := widthMeters
      heightMeters := heightMeters
      screenNumber := screenNumber
      border := border
      centerPanel := centerPanel
      posZ := distanceMeters + zOffset }

/-- `calculateFurthestScreenDistance()` (lines 1083-1096): the maximum of
the per-screen distances (each defaulted through `||`), starting from 0;
the default preset distance when the list is empty. -/
def calculateFurthestScreenDistance (defaultDistance : ℚ)
    (screens : List ScreenData) : ℚ :=
  if screens.isEmpty then defaultDistance
  else screens.foldl (fun m s => max m (jsOrDefault s.distance defaultDistance)) 0

/-- Camera position and orbit target produced by the isometric branch of
`updateCameraPosition`. -/
structure IsoCamera where
  posX : ℚ
  posY : ℚ
  posZ : ℚ
  targetX : ℚ
  targetY : ℚ
  targetZ : ℚ
deriving DecidableEq

/-- The isometric ('3d') branch of `updateCameraPosition` (lines 1477-1515):
`cameraDistance = max(0.1, furthestDistanceMeters * 0.2)`, height and side
are 2x and 3x that, and the orbit target is the midpoint between the viewer
and the furthest screen. -/
def updateCameraPositionIso (defaultDistance : ℚ)
    (screens : List ScreenData) : IsoCamera :=
  let furthestDistance := calculateFurthestScreenDistance defaultDistance screens
  let furthestDistanceMeters := furthestDistance / 1000
  let cameraDistance := max (1 / 10) (furthestDistanceMeters * (2 / 10))
  let cameraHeight := cameraDistance * 2
  let cameraSide := cameraDistance * 3
  let midpointZ := -furthestDistanceMeters / 2
  { posX := cameraSide
    posY := cameraHeight
    posZ := cameraDistance
    targetX := 0
    targetY := 0
    targetZ := midpointZ }

/-- One orbit drag-move step from `onMouseMove` (lines 781-799): state is
`(phi, theta)`, the pixel delta is `(deltaX, deltaY)`, `rotateSpeed` is
0.01, and `phi` is clamped to `[0.1, π - 0.1]` after the update. -/
noncomputable def onMouseMoveOrbit (phi theta deltaX deltaY : ℝ) : ℝ × ℝ :=
  let theta' := theta - deltaX * (1 / 100)
  let phi' := phi - deltaY * (1 / 100)
  (max (1 / 10) (min (Real.pi - 1 / 10) phi'), theta')

/-- One orbit drag-move step from `onTouchMove` (lines 888-907); the source
repeats the mouse formulas verbatim ("same speed as mouse"). -/
noncomputable def onTouchMoveOrbit (phi theta deltaX deltaY : ℝ) : ℝ × ℝ :=
  let theta' := theta - deltaX * (1 / 100)
  let phi' := phi - deltaY * (1 / 100)
  (max (1 / 10) (min (Real.pi - 1 / 10) phi'), theta')

/-- Folding a list of drag-move pixel deltas over the orbit state. -/
noncomputable def orbitDragRun (s : ℝ × ℝ) (ds : List (ℝ × ℝ)) : ℝ × ℝ :=
  ds.foldl (fun st d => onMouseMoveOrbit st.1 st.2 d.1 d.2) s

/-- `this.zoomState.minZoom` (line 40). -/
def minZoom : ℚ := 2 / 10

/-- `this.zoomState.maxZoom` (line 41). -/
def maxZoom : ℚ := 5

/-- The zoom-factor update of `applyZoom(delta, sensitivity)`
(lines 1064-1075). -/
def applyZoomFactor (zoomFactor delta sensitivity : ℚ) : ℚ :=
  let adjustedDelta := 1 + (delta - 1) * sensitivity
  max minZoom (min maxZoom (zoomFactor * adjustedDelta))

/-- The effective spherical radius set by `applyZoom` (lines 1078-1079):
`max(0.01, baseDistance / zoomFactor)`. -/
def sphericalRadiusAfterZoom (baseDistance zoomFactor : ℚ) : ℚ :=
  max (1 / 100) (baseDistance / zoomFactor)

/-- Folding a list of `(delta, sensitivity)` zoom events over the zoom
factor. -/
def zoomRun (z : ℚ) (ds : List (ℚ × ℚ)) : ℚ :=
  ds.foldl (fun z d => applyZoomFactor z d.1 d.2) z

/-- The theta wrap of `animateCamera` (lines 1299-1304): bring
`target - current` back by `2π` when it exceeds `π` in either direction
(one pass each way). -/
noncomputable def wrapDeltaTheta (targetTheta currentTheta : ℝ) : ℝ :=
  let d := targetTheta - currentTheta
  let d1 := if d > Real.pi then d - 2 * Real.pi else d
  if d1 < -Real.pi then d1 + 2 * Real.pi else d1

/-- The blended azimuth step of `animateCamera` (line 1305):
`current + deltaTheta * animationSpeed`. -/
noncomputable def animateThetaStep (currentTheta targetTheta animationSpeed : ℝ) : ℝ :=
  currentTheta + wrapDeltaTheta targetTheta currentTheta * animationSpeed

/-- Orbit spherical coordinates `(radius, phi, theta)`. -/
structure Spherical where
  radius : ℝ
  phi : ℝ
  theta : ℝ

/-- Spherical coordinates in which the polar angle may be the JS `NaN`
(modelled as `none`). -/
structure SphericalNaN where
  radius : ℝ
  phi : Option ℝ
  theta : ℝ

/-- `offset.length()` for an offset vector with rational components. -/
noncomputable def offsetRadius (x y z : ℚ) : ℝ :=
  Real.sqrt ((x : ℝ) ^ 2 + (y : ℝ) ^ 2 + (z : ℝ) ^ 2)

/-- JS `Math.atan2(a, b)`, total: `atan2(0, 0) = 0`. -/
noncomputable def jsAtan2 (a b : ℝ) : ℝ :=
  if 0 < b then Real.arctan (a / b)
  else if b < 0 then
    (if 0 ≤ a then Real.arctan (a / b) + Real.pi
     else Real.arctan (a / b) - Real.pi)
  else
    (if 0 < a then Real.pi / 2 else if a < 0 then -(Real.pi / 2) else 0)

/-- The spherical angles computed from a camera-to-target offset:
`phi = acos(clamp(offset.y / radius))`, `theta = atan2(offset.x, offset.z)`
(used at lines 746-748, 854-856, 1279-1281, 1891-1893 behind a
`radius > 0` guard). -/
noncomputable def sphericalFromOffset (x y z : ℚ) : Spherical :=
  { radius := offsetRadius x y z
    phi := Real.arccos (max (-1) (min 1 ((y : ℝ) / offsetRadius x y z)))
    theta := jsAtan2 (x : ℝ) (z : ℝ) }

/-- The orbit-state seeding in `onMouseDown` (lines 739-750): recompute the
spherical coordinates from the live offset when `radius > 0`, keep the
previous spherical state otherwise. -/
noncomputable def onMouseDownSeed (prev : Spherical) (x y z : ℚ) : Spherical :=
  if 0 < offsetRadius x y z then sphericalFromOffset x y z else prev

/-- The orbit-state seeding in `onTouchStart` (lines 848-858), identical to
the mouse case. -/
noncomputable def onTouchStartSeed (prev : Spherical) (x y z : ℚ) : Spherical :=
  if 0 < offsetRadius x y z then sphericalFromOffset x y z else prev

/-- The mode-switch seeding in `setViewAngle` (lines 1885-1896): guarded,
with fixed fallback `Spherical(1, π/2, 0)`. -/
noncomputable def setViewAngleSeed (x y z : ℚ) : Spherical :=
  if 0 < offsetRadius x y z then sphericalFromOffset x y z
  else ⟨1, Real.pi / 2, 0⟩

/-- The in-animation fallback seeding in `animateCamera` (lines 1272-1285):
guarded, with fixed fallback `Spherical(1, π/4, π/4)`. -/
noncomputable def animateFallbackSeed (x y z : ℚ) : Spherical :=
  if 0 < offsetRadius x y z then sphericalFromOffset x y z
  else ⟨1, Real.pi / 4, Real.pi / 4⟩

/-- The polar angle computed by the convergence snap of `animateCamera`
(lines 1331-1338).  There is no `radius > 0` guard there: with a
zero-length offset JS computes `acos(min(1, max(-1, 0/0))) = NaN`;
`none` models that `NaN`. -/
noncomputable def convergenceSnapPhi (x y z : ℚ) : Option ℝ :=
  if offsetRadius x y z = 0 then none
  else some (Real.arccos (max (-1) (min 1 ((y : ℝ) / offsetRadius x y z))))

/-- The spherical state written by the convergence snap of `animateCamera`
(lines 1330-1338), with the possibly-NaN polar angle. -/
noncomputable def convergenceSnapSpherical (x y z : ℚ) : SphericalNaN :=
  { radius := offsetRadius x y z
    phi := convergenceSnapPhi x y z
    theta := jsAtan2 (x : ℝ) (z : ℝ) }

/-- Rendering of the curvature field inside a template literal: JS prints
`null` for a missing curvature. -/
def curvatureString : Option ℚ → String
  | none => "null"
  | some c => toString c

/-- The per-screen signature template of `generateScreensHash` (line 1768).
Rational values are rendered with Lean's `toString`; the exact rendering of
numbers is irrelevant to the properties proved here. -/
def screenSignature (s : ScreenData) : String :=
  toString s.diagonal ++ "-" ++ toString s.resolutionW ++ "x" ++
    toString s.resolutionH ++ "-" ++ toString s.distance ++ "-" ++
    curvatureString s.curvature ++ "-" ++ toString s.scaling ++ "-" ++
    toString s.screenNumber

/-- `generateScreensHash(screens)` (lines 1762-1770): map each screen to its
signature string, sort the strings (JS default lexicographic sort), join
with a separator bar. -/
def generateScreensHash (screens : List ScreenData) : String :=
  if screens.isEmpty then "empty"
  else String.intercalate "|"
    ((screens.map screenSignature).mergeSort (fun a b => decide (a ≤ b)))

/-- `calculateDistanceHash()` (lines 1152-1162): defaulted distances sorted
numerically and joined with dashes. -/
def calculateDistanceHash (defaultDistance : ℚ)
    (screens : List ScreenData) : String :=
  if screens.isEmpty then "no-screens"
  else String.intercalate "-"
    (((screens.map (fun s => jsOrDefault s.distance defaultDistance)).mergeSort
      (fun a b => decide (a ≤ b))).map toString)

/-- The change-detection fields of the visualizer (`lastScreensHash`,
`lastCanvasSize`, `lastTheme`, `lastDistanceHash`; `true` = dark theme). -/
structure VisState where
  lastScreensHash : Option String
  lastCanvasW : ℕ
  lastCanvasH : ℕ
  lastTheme : Bool
  lastDistanceHash : Option String
deriving DecidableEq

/-- `hasThemeChanged()` (lines 1748-1755): compares and synchronises
`lastTheme`. -/
def hasThemeChanged (st : VisState) (theme : Bool) : Bool × VisState :=
  if st.lastTheme != theme then (true, { st with lastTheme := theme })
  else (false, st)

/-- `hasScreenDataChanged(screens)` (lines 1777-1791): true when the screen
hash, canvas size or theme changed; updates the cached values when so. -/
def hasScreenDataChanged (st : VisState) (screens : List ScreenData)
    (canvasW canvasH : ℕ) (theme : Bool) : Bool × VisState :=
  let currentHash := generateScreensHash screens
  let sizeChanged := decide (st.lastCanvasW ≠ canvasW) ||
    decide (st.lastCanvasH ≠ canvasH)
  let tc := hasThemeChanged st theme
  if (st.lastScreensHash != some currentHash) || sizeChanged || tc.1 then
    (true, { tc.2 with lastScreensHash := some currentHash
                       lastCanvasW := canvasW
                       lastCanvasH := canvasH })
  else (false, tc.2)

/-- `hasDistanceChanged()` (lines 1165-1172): compares and synchronises
`lastDistanceHash`. -/
def hasDistanceChanged (defaultDistance : ℚ) (st : VisState)
    (screens : List ScreenData) : Bool × VisState :=
  let h := calculateDistanceHash defaultDistance screens
  if st.lastDistanceHash != some h then
    (true, { st with lastDistanceHash := some h })
  else (false, st)

/-- Outcome of one `updateScreens` call: whether the geometry was rebuilt
(`createScreens`), whether the responsive camera update was scheduled, and
the new cached state. -/
structure UpdateResult where
  rebuiltGeometry : Bool
  cameraUpdated : Bool
  state : VisState
deriving DecidableEq

/-- `updateScreens(screens)` (lines 1793-1810) in the initialized state:
check the distance hash, rebuild geometry only when `hasScreenDataChanged`,
schedule the camera update only when the distances changed. -/
def updateScreens (defaultDistance : ℚ) (st : VisState)
    (screens : List ScreenData) (canvasW canvasH : ℕ) (theme : Bool) :
    UpdateResult :=
  let dc := hasDistanceChanged defaultDistance st screens
  let sc := hasScreenDataChanged dc.2 screens canvasW canvasH theme
  { rebuiltGeometry := sc.1
    cameraUpdated := dc.1
    state := sc.2 }

/-- Sample flat 24-inch screen at 600 mm, used in concrete instances. -/
def screen600 : ScreenData := ⟨24, 1920, 1080, 600, none, 100, 1⟩

/-- Sample flat 27-inch screen at 900 mm, used in concrete instances. -/
def screen900 : ScreenData := ⟨27, 2560, 1440, 900, none, 100, 2⟩

/-- Sample flat 24-inch screen at 400 mm, used in concrete instances. -/
def screen400 : ScreenData := ⟨24, 1920, 1080, 400, none, 100, 1⟩

/-- A spec that is invalid per the spec's validity taxonomy: its viewing
distance is 0, which is not greater than 0. -/
def invalidSpec : ScreenData := ⟨24, 1920, 1080, 0, none, 100, 1⟩

/-! ## Shared helper lemmas -/

/-- If every single step lands in `P`, a nonempty fold lands in `P`. -/
theorem foldl_prop_of_ne_nil {α β : Type} (step : α → β → α) (P : α → Prop)
    (hstep : ∀ a b, P (step a b)) :
    ∀ (l : List β) (a : α), l ≠ [] → P (l.foldl step a) := by
  intro l
  induction l with
  | nil => intro a h; exact absurd rfl h
  | cons b bs ih =>
    intro a _
    rw [List.foldl_cons]
    cases bs with
    | nil => simpa using hstep a b
    | cons c cs => exact ih (step a b) (by simp)

/-- The starting accumulator is below a fold of binary maxima. -/
theorem le_foldl_max (f : ScreenData → ℚ) :
    ∀ (l : List ScreenData) (a : ℚ),
      a ≤ l.foldl (fun m s => max m (f s)) a := by
  intro l
  induction l with
  | nil => intro a; simp
  | cons x xs ih =>
    intro a
    rw [List.foldl_cons]
    exact le_trans (le_max_left a (f x)) (ih (max a (f x)))

/-- Every member's value is below a fold of binary maxima. -/
theorem mem_le_foldl_max (f : ScreenData → ℚ) :
    ∀ (l : List ScreenData) (a : ℚ), ∀ s ∈ l,
      f s ≤ l.foldl (fun m s => max m (f s)) a := by
  intro l
  induction l with
  | nil => intro a s hs; simp at hs
  | cons x xs ih =>
    intro a s hs
    rw [List.foldl_cons]
    rcases List.mem_cons.mp hs with h | h
    · subst h
      exact le_trans (le_max_right a (f s)) (le_foldl_max f xs _)
    · exact ih _ s h

/-! ## C1 -/

/-- C1 counterexample: the claim says the border frame is 5% of the panel
height thick, but `createScreenBorder` computes `screenHeight * 0.01`; at
height 1 the thickness is 1/100, not 5/100. -/
theorem borderThickness_not_five_percent :
    (createScreenBorder (1 : ℚ) 1 none).thickness ≠ 5 / 100 * 1 := by
  have h : (createScreenBorder (1 : ℚ) 1 none).thickness = 1 * (1 / 100) := rfl
  rw [h]
  norm_num

/-- C1 (amended): for every screen, flat or curved, the border frame built
by `createScreenBorder` has thickness `0.01 * heightM` (1% of the panel's
height in meters). -/
theorem borderThickness_one_percent_of_height {K : Type}
    [LinearOrderedField K] [FloorRing K] (w h : K) (c : Option K) :
    (createScreenBorder w h c).thickness = h * (1 / 100) := by
  cases c <;> rfl

/-! ## C2 -/

/-- C2 counterexample: for the invalid spec with viewing distance 0 (≤ 0),
`createSingleScreen` does not fail: it returns panel and border geometry,
silently placing it at the configured default preset distance of 600 mm,
i.e. at `z = -600/1000 = -0.6` meters. -/
theorem createSingleScreen_invalid_spec_still_builds :
    ∃ g, createSingleScreen PRESET_DISTANCE invalidSpec 0 = Except.ok g ∧
      g.posZ = -(3 / 5) := by
  refine ⟨_, rfl, ?_⟩
  norm_num [createSingleScreen, jsOrDefault, invalidSpec, PRESET_DISTANCE]

/-- C2 (amended): `createSingleScreen` performs no input validation and has
no error path: for every spec (including non-positive fields) it emits
panel and border geometry, and a zero (or missing) distance is silently
replaced by the default preset distance through JS `||`. -/
theorem createSingleScreen_total_no_validation (d : ℚ) (sd : ScreenData)
    (i : ℕ) :
    ∃ g, createSingleScreen d sd i = Except.ok g ∧
      g.posZ = -(jsOrDefault sd.distance d) / 1000 + i * (1 / 1000) ∧
      g.centerPanel = createCenterPanel
        (screenWidthMeters sd.diagonal sd.resolutionW sd.resolutionH)
        (screenHeightMeters sd.diagonal sd.resolutionW sd.resolutionH)
        ((jsCurvatureOrNull sd.curvature).map (fun q => (q : ℝ))) := by
  refine ⟨_, rfl, ?_, ?_⟩ <;> rfl

/-! ## C6 -/

/-- C6 counterexample: the camera height offset is not proportional to the
furthest distance: with a single screen at 400 mm the height is 0.2 m
(`0.5 *` the furthest 0.4 m, because of the `max(0.1, ...)` floor), while
with screens at 600 mm and 900 mm it is 0.36 m (`0.4 *` the furthest
0.9 m); cross-multiplying exhibits the failure of proportionality. -/
theorem isoCamera_offsets_not_proportional :
    (updateCameraPositionIso 800 [screen400]).posY * (9 / 10) ≠
      (updateCameraPositionIso 800 [screen600, screen900]).posY * (4 / 10) := by
  have h4 : calculateFurthestScreenDistance 800 [screen400] = 400 := by
    show max 0 (jsOrDefault screen400.distance 800) = 400
    rw [show jsOrDefault screen400.distance 800 = (400 : ℚ) by
      norm_num [jsOrDefault, screen400]]
    exact max_eq_right (by norm_num)
  have h9 : calculateFurthestScreenDistance 800 [screen600, screen900] = 900 := by
    show max (max 0 (jsOrDefault screen600.distance 800))
      (jsOrDefault screen900.distance 800) = 900
    rw [show jsOrDefault screen600.distance 800 = (600 : ℚ) by
        norm_num [jsOrDefault, screen600],
      show jsOrDefault screen900.distance 800 = (900 : ℚ) by
        norm_num [jsOrDefault, screen900],
      max_eq_right (show (0 : ℚ) ≤ 600 by norm_num),
      max_eq_right (show (600 : ℚ) ≤ 900 by norm_num)]
  have p4 : (updateCameraPositionIso 800 [screen400]).posY =
      max (1 / 10) (calculateFurthestScreenDistance 800 [screen400] / 1000 *
        (2 / 10)) * 2 := rfl
  have p9 : (updateCameraPositionIso 800 [screen600, screen900]).posY =
      max (1 / 10) (calculateFurthestScreenDistance 800 [screen600, screen900] /
        1000 * (2 / 10)) * 2 := rfl
  rw [p4, p9, h4, h9, max_eq_left (by norm_num), max_eq_right (by norm_num)]
  norm_num

/-- C6 (amended): the isometric orbit target is always the midpoint between
the viewer at the origin and the furthest screen
(`z = -furthestDistanceM/2`), `furthestDistanceM` is an upper bound of all
(defaulted) screen distances and is a fixed default for the empty list, and
whenever `furthestDistanceM ≥ 0.5` (so that the `max(0.1, ...)` floor in
`cameraDistance` is inactive) the camera side/height/depth offsets are
exactly `0.6×`, `0.4×` and `0.2×` the furthest distance — in particular
with screens at 600 mm and 900 mm every offset scales from 0.9 m. -/
theorem isoCamera_midpoint_and_scaled_offsets (d : ℚ)
    (ss : List ScreenData) :
    (updateCameraPositionIso d ss).targetX = 0 ∧
    (updateCameraPositionIso d ss).targetY = 0 ∧
    (updateCameraPositionIso d ss).targetZ =
      -(calculateFurthestScreenDistance d ss / 1000) / 2 ∧
    calculateFurthestScreenDistance d [] = d ∧
    (∀ s ∈ ss, ¬ss.isEmpty →
      jsOrDefault s.distance d ≤ calculateFurthestScreenDistance d ss) ∧
    (1 / 2 ≤ calculateFurthestScreenDistance d ss / 1000 →
      updateCameraPositionIso d ss =
        ⟨6 / 10 * (calculateFurthestScreenDistance d ss / 1000),
         4 / 10 * (calculateFurthestScreenDistance d ss / 1000),
         2 / 10 * (calculateFurthestScreenDistance d ss / 1000),
         0, 0, -(calculateFurthestScreenDistance d ss / 1000) / 2⟩) := by
  refine ⟨rfl, rfl, rfl, rfl, ?_, ?_⟩
  · intro s hs hne
    unfold calculateFurthestScreenDistance
    rw [if_neg (by simpa using hne)]
    exact mem_le_foldl_max (fun s => jsOrDefault s.distance d) ss 0 s hs
  · intro hf
    have hm : max ((1 : ℚ) / 10)
        (calculateFurthestScreenDistance d ss / 1000 * (2 / 10)) =
        calculateFurthestScreenDistance d ss / 1000 * (2 / 10) :=
      max_eq_right (by linarith)
    have hx : updateCameraPositionIso d ss =
        ⟨max (1 / 10) (calculateFurthestScreenDistance d ss / 1000 * (2 / 10)) * 3,
         max (1 / 10) (calculateFurthestScreenDistance d ss / 1000 * (2 / 10)) * 2,
         max (1 / 10) (calculateFurthestScreenDistance d ss / 1000 * (2 / 10)),
         0, 0, -(calculateFurthestScreenDistance d ss / 1000) / 2⟩ := rfl
    rw [hx, hm, IsoCamera.mk.injEq]
    exact ⟨by ring, by ring, by ring, rfl, rfl, rfl⟩

/-- The furthest distance of the concrete 600 mm / 900 mm pair. -/
theorem furthest_600_900 :
    calculateFurthestScreenDistance 800 [screen600, screen900] = 900 := by
  show max (max 0 (jsOrDefault screen600.distance 800))
    (jsOrDefault screen900.distance 800) = 900
  rw [show jsOrDefault screen600.distance 800 = (600 : ℚ) by
      norm_num [jsOrDefault, screen600],
    show jsOrDefault screen900.distance 800 = (900 : ℚ) by
      norm_num [jsOrDefault, screen900],
    max_eq_right (show (0 : ℚ) ≤ 600 by norm_num),
    max_eq_right (show (600 : ℚ) ≤ 900 by norm_num)]

/-- C6 witness: with screens at 600 mm and 900 mm the furthest distance is
0.9 m, the floor is inactive, and every offset scales from 0.9. -/
theorem isoCamera_witness :
    calculateFurthestScreenDistance 800 [screen600, screen900] = 900 ∧
    (1 / 2 : ℚ) ≤ calculateFurthestScreenDistance 800 [screen600, screen900] /
      1000 ∧
    (updateCameraPositionIso 800 [screen600, screen900]).targetZ =
      -(calculateFurthestScreenDistance 800 [screen600, screen900] / 1000) / 2 ∧
    updateCameraPositionIso 800 [screen600, screen900] =
      ⟨6 / 10 * (calculateFurthestScreenDistance 800 [screen600, screen900] / 1000),
       4 / 10 * (calculateFurthestScreenDistance 800 [screen600, screen900] / 1000),
       2 / 10 * (calculateFurthestScreenDistance 800 [screen600, screen900] / 1000),
       0, 0,
       -(calculateFurthestScreenDistance 800 [screen600, screen900] / 1000) / 2⟩ := by
  have h := isoCamera_midpoint_and_scaled_offsets 800 [screen600, screen900]
  refine ⟨furthest_600_900, ?_, h.2.2.1, h.2.2.2.2.2 ?_⟩ <;>
  · rw [furthest_600_900]
    norm_num

/-! ## C8 -/

/-- Each zoom step lands inside the clamp interval. -/
theorem applyZoomFactor_mem (z dδ s : ℚ) :
    2 / 10 ≤ applyZoomFactor z dδ s ∧ applyZoomFactor z dδ s ≤ 5 := by
  unfold applyZoomFactor minZoom maxZoom
  constructor
  · exact le_max_left _ _
  · exact max_le (by norm_num) (min_le_left _ _)

/-- C8: after any nonempty sequence of wheel/pinch zoom deltas applied via
`applyZoom`, the zoom factor lies within `[0.2, 5.0]`, and the effective
spherical radius `max(0.01, baseDistance / zoomFactor)` is strictly above
zero. -/
theorem zoom_clamped_and_radius_positive (z : ℚ) (ds : List (ℚ × ℚ))
    (h : ds ≠ []) :
    (2 / 10 ≤ zoomRun z ds ∧ zoomRun z ds ≤ 5) ∧
    ∀ b : ℚ, 0 < sphericalRadiusAfterZoom b (zoomRun z ds) := by
  constructor
  · exact @foldl_prop_of_ne_nil ℚ (ℚ × ℚ)
      (fun z d => applyZoomFactor z d.1 d.2)
      (fun x => 2 / 10 ≤ x ∧ x ≤ 5)
      (fun a b => applyZoomFactor_mem a b.1 b.2) ds z h
  · intro b
    have : (0 : ℚ) < 1 / 100 := by norm_num
    exact lt_of_lt_of_le this (le_max_left _ _)

/-- C8 witness: a concrete zoom sequence. -/
theorem zoom_clamped_witness :
    ([((2 : ℚ), (1 : ℚ))] ≠ []) ∧
    (2 / 10 ≤ zoomRun 1 [(2, 1)] ∧ zoomRun 1 [(2, 1)] ≤ 5) ∧
    0 < sphericalRadiusAfterZoom 3 (zoomRun 1 [(2, 1)]) := by
  have hne : ([((2 : ℚ), (1 : ℚ))]) ≠ [] := List.cons_ne_nil _ _
  exact ⟨hne, (zoom_clamped_and_radius_positive 1 [(2, 1)] hne).1,
    (zoom_clamped_and_radius_positive 1 [(2, 1)] hne).2 3⟩

/-! ## C4 -/

/-- C4: for positive diagonal and resolution, the physical size formulas of
`createSingleScreen` hold (`heightInches = diagonal / sqrt(ratio^2 + 1)`,
`widthInches = ratio * heightInches`, inches→mm by 25.4 then mm→m by 1000),
the computed height is positive, and consequently the widthM/heightM ratio
equals `resolutionW / resolutionH`. -/
theorem screenDims_ratio_matches_resolution (d w h : ℚ)
    (hd : 0 < d) (hw : 0 < w) (hh : 0 < h) :
    screenHeightInches d w h =
      (d : ℝ) / Real.sqrt (((w : ℝ) / (h : ℝ)) ^ 2 + 1) ∧
    screenWidthInches d w h = (w : ℝ) / (h : ℝ) * screenHeightInches d w h ∧
    screenWidthMeters d w h =
      screenWidthInches d w h * ((254 : ℝ) / 10) / 1000 ∧
    screenHeightMeters d w h =
      screenHeightInches d w h * ((254 : ℝ) / 10) / 1000 ∧
    0 < screenHeightMeters d w h ∧
    screenWidthMeters d w h / screenHeightMeters d w h =
      (w : ℝ) / (h : ℝ) := by
  have hs : (0 : ℝ) < Real.sqrt (screenRatio w h ^ 2 + 1) :=
    Real.sqrt_pos.mpr (by positivity)
  have hd' : (0 : ℝ) < (d : ℝ) := by exact_mod_cast hd
  have hhi : 0 < screenHeightInches d w h := div_pos hd' hs
  have hconv : (0 : ℝ) < ((INCHES_TO_MM : ℚ) : ℝ) := by
    norm_num [INCHES_TO_MM]
  have hhm : 0 < screenHeightMeters d w h := by
    unfold screenHeightMeters
    exact div_pos (mul_pos hhi hconv) (by norm_num)
  have hcnv : ((INCHES_TO_MM : ℚ) : ℝ) = (254 : ℝ) / 10 := by
    norm_num [INCHES_TO_MM]
  refine ⟨rfl, rfl, by rw [← hcnv]; rfl, by rw [← hcnv]; rfl, hhm, ?_⟩
  have key : screenWidthMeters d w h = screenRatio w h * screenHeightMeters d w h := by
    unfold screenWidthMeters screenHeightMeters screenWidthInches
    ring
  rw [key, mul_div_assoc, div_self (ne_of_gt hhm), mul_one]
  rfl

/-- C4 witness: the 24-inch 1920x1080 screen. -/
theorem screenDims_ratio_witness :
    (0 : ℚ) < 24 ∧ (0 : ℚ) < 1920 ∧ (0 : ℚ) < 1080 ∧
    screenWidthMeters 24 1920 1080 / screenHeightMeters 24 1920 1080 =
      ((1920 : ℚ) : ℝ) / ((1080 : ℚ) : ℝ) := by
  refine ⟨by norm_num, by norm_num, by norm_num, ?_⟩
  exact (screenDims_ratio_matches_resolution 24 1920 1080
    (by norm_num) (by norm_num) (by norm_num)).2.2.2.2.2

/-! ## C5 -/

/-- C5: for curved screens (`curvature > 0`), the panel and the border use
the same arc parameters, with `arcAngle = widthM / curvatureRadiusM` (so
`arcAngle * curvatureRadiusM` recovers `widthM` exactly), and the segment
count `max(32, floor(arcAngle * 32))` is at least 32 and is monotone in the
arc angle. -/
theorem curvedArc_roundtrip_and_segments (w h w2 h2 c c2 : ℝ)
    (hc : 0 < c) (hc2 : 0 < c2) :
    (createCenterPanel w h (some c)).arcParams? = some (curvedArcParams w c) ∧
    (createScreenBorder w h (some c)).arcParams? = some (curvedArcParams w c) ∧
    (createCenterPanel w2 h2 (some c2)).arcParams? =
      some (curvedArcParams w2 c2) ∧
    (curvedArcParams w c).arcAngle = w / (c / 1000) ∧
    (curvedArcParams w c).radiusMeters = c / 1000 ∧
    (curvedArcParams w c).arcAngle * (c / 1000) = w ∧
    32 ≤ (curvedArcParams w c).segments ∧
    ((curvedArcParams w c).arcAngle ≤ (curvedArcParams w2 c2).arcAngle →
      (curvedArcParams w c).segments ≤ (curvedArcParams w2 c2).segments) := by
  have hcm : (0 : ℝ) < c / 1000 := by positivity
  refine ⟨rfl, rfl, rfl, rfl, rfl, ?_, le_max_left _ _, ?_⟩
  · exact div_mul_cancel₀ w (ne_of_gt hcm)
  · intro hle
    refine max_le_max le_rfl (Int.floor_mono ?_)
    exact mul_le_mul_of_nonneg_right hle (by norm_num)

/-- C5 witness: a 2 m wide screen with curvature radius 1000 mm (arc angle
2 rad, 64 segments) against a 4 m wide one. -/
theorem curvedArc_roundtrip_witness :
    (0 : ℝ) < 1000 ∧
    (createCenterPanel (2 : ℝ) 1 (some 1000)).arcParams? =
      some (curvedArcParams 2 1000) ∧
    (createScreenBorder (2 : ℝ) 1 (some 1000)).arcParams? =
      some (curvedArcParams 2 1000) ∧
    (curvedArcParams (2 : ℝ) 1000).arcAngle * (1000 / 1000) = 2 ∧
    32 ≤ (curvedArcParams (2 : ℝ) 1000).segments ∧
    (curvedArcParams (2 : ℝ) 1000).segments ≤
      (curvedArcParams (4 : ℝ) 1000).segments := by
  have h := curvedArc_roundtrip_and_segments 2 1 4 1 1000 1000
    (by norm_num) (by norm_num)
  refine ⟨by norm_num, h.1, h.2.1, h.2.2.2.2.2.1, h.2.2.2.2.2.2.1, ?_⟩
  refine h.2.2.2.2.2.2.2 ?_
  have e1 : (curvedArcParams (2 : ℝ) 1000).arcAngle = 2 := by
    norm_num [curvedArcParams]
  have e2 : (curvedArcParams (4 : ℝ) 1000).arcAngle = 4 := by
    norm_num [curvedArcParams]
  rw [e1, e2]
  norm_num

/-! ## C7 -/

/-- Each orbit drag-move step lands inside the polar clamp interval. -/
theorem onMouseMoveOrbit_phi_mem (phi theta dx dy : ℝ) :
    1 / 10 ≤ (onMouseMoveOrbit phi theta dx dy).1 ∧
    (onMouseMoveOrbit phi theta dx dy).1 ≤ Real.pi - 1 / 10 := by
  unfold onMouseMoveOrbit
  have hpi : (1 : ℝ) / 10 ≤ Real.pi - 1 / 10 := by
    have := Real.pi_gt_three
    linarith
  exact ⟨le_max_left _ _, max_le hpi (min_le_left _ _)⟩

/-- C7: after any nonempty sequence of orbit drag-move events the polar
angle lies within `[0.1, π - 0.1]`; the touch handler applies exactly the
same update as the mouse handler. -/
theorem orbitDrag_phi_clamped (s : ℝ × ℝ) (ds : List (ℝ × ℝ))
    (h : ds ≠ []) :
    (1 / 10 ≤ (orbitDragRun s ds).1 ∧
      (orbitDragRun s ds).1 ≤ Real.pi - 1 / 10) ∧
    ∀ p t dx dy : ℝ, onTouchMoveOrbit p t dx dy = onMouseMoveOrbit p t dx dy := by
  constructor
  · exact @foldl_prop_of_ne_nil (ℝ × ℝ) (ℝ × ℝ)
      (fun st d => onMouseMoveOrbit st.1 st.2 d.1 d.2)
      (fun st => 1 / 10 ≤ st.1 ∧ st.1 ≤ Real.pi - 1 / 10)
      (fun a b => onMouseMoveOrbit_phi_mem a.1 a.2 b.1 b.2) ds s h
  · intro p t dx dy
    rfl

/-- C7 witness: one extreme downward drag from an arbitrary state. -/
theorem orbitDrag_phi_clamped_witness :
    (([((5 : ℝ), -1000000)] : List (ℝ × ℝ)) ≠ []) ∧
    (1 / 10 ≤ (orbitDragRun (0, 0) [((5 : ℝ), -1000000)]).1 ∧
      (orbitDragRun (0, 0) [((5 : ℝ), -1000000)]).1 ≤ Real.pi - 1 / 10) ∧
    onTouchMoveOrbit 1 2 3 4 = onMouseMoveOrbit 1 2 3 4 := by
  have hne : (([((5 : ℝ), -1000000)] : List (ℝ × ℝ))) ≠ [] :=
    List.cons_ne_nil _ _
  exact ⟨hne, (orbitDrag_phi_clamped (0, 0) _ hne).1,
    (orbitDrag_phi_clamped (0, 0) _ hne).2 1 2 3 4⟩

/-! ## C9 -/

/-- C9: for an azimuth difference of exactly `π + ε` with `ε` small
(`0 < ε < π`), the wrapped delta is `ε - π`, which lies in `(-π, π]` and is
negative, so the blended step `current + delta * animationSpeed` moves in
the direction of the shorter arc (decreasing), never the long way
around. -/
theorem thetaWrap_shortest_path (c ε speed : ℝ)
    (h0 : 0 < ε) (hπ : ε < Real.pi) (hs : 0 < speed) :
    wrapDeltaTheta (c + (Real.pi + ε)) c = ε - Real.pi ∧
    (-Real.pi < ε - Real.pi ∧ ε - Real.pi ≤ Real.pi) ∧
    animateThetaStep c (c + (Real.pi + ε)) speed < c := by
  have hpi := Real.pi_gt_three
  have hw : wrapDeltaTheta (c + (Real.pi + ε)) c = ε - Real.pi := by
    simp only [wrapDeltaTheta]
    rw [if_pos (by linarith : c + (Real.pi + ε) - c > Real.pi)]
    rw [if_neg (by linarith : ¬c + (Real.pi + ε) - c - 2 * Real.pi < -Real.pi)]
    ring
  refine ⟨hw, ⟨by linarith, by linarith⟩, ?_⟩
  unfold animateThetaStep
  rw [hw]
  have : (ε - Real.pi) * speed < 0 :=
    mul_neg_of_neg_of_pos (by linarith) hs
  linarith

/-- C9 witness: `ε = 1`, animation speed `0.1`. -/
theorem thetaWrap_shortest_path_witness :
    (0 : ℝ) < 1 ∧ (1 : ℝ) < Real.pi ∧ (0 : ℝ) < 1 / 10 ∧
    wrapDeltaTheta (0 + (Real.pi + 1)) 0 = 1 - Real.pi ∧
    animateThetaStep 0 (0 + (Real.pi + 1)) (1 / 10) < 0 := by
  have h1 : (1 : ℝ) < Real.pi := by
    have := Real.pi_gt_three
    linarith
  have h := thetaWrap_shortest_path 0 1 (1 / 10) (by norm_num) h1 (by norm_num)
  exact ⟨by norm_num, h1, by norm_num, h.1, h.2.2⟩

/-! ## C3 -/

/-- The offset length vanishes on the zero vector. -/
theorem offsetRadius_zero : offsetRadius 0 0 0 = 0 := by
  unfold offsetRadius
  rw [show ((0 : ℚ) : ℝ) ^ 2 + ((0 : ℚ) : ℝ) ^ 2 + ((0 : ℚ) : ℝ) ^ 2 = 0 by
    norm_num]
  exact Real.sqrt_zero

/-- The offset length is positive on any nonzero vector. -/
theorem offsetRadius_pos_of_ne_zero (x y z : ℚ)
    (h : ¬(x = 0 ∧ y = 0 ∧ z = 0)) : 0 < offsetRadius x y z := by
  unfold offsetRadius
  apply Real.sqrt_pos.mpr
  have hy2 : (0 : ℝ) ≤ (y : ℝ) ^ 2 := sq_nonneg _
  have hz2 : (0 : ℝ) ≤ (z : ℝ) ^ 2 := sq_nonneg _
  have hx2 : (0 : ℝ) ≤ (x : ℝ) ^ 2 := sq_nonneg _
  rcases not_and_or.mp h with hx | h2
  · have hx' : (x : ℝ) ≠ 0 := by exact_mod_cast hx
    have : 0 < (x : ℝ) ^ 2 := by positivity
    linarith
  · rcases not_and_or.mp h2 with hy | hz
    · have hy' : (y : ℝ) ≠ 0 := by exact_mod_cast hy
      have : 0 < (y : ℝ) ^ 2 := by positivity
      linarith
    · have hz' : (z : ℝ) ≠ 0 := by exact_mod_cast hz
      have : 0 < (z : ℝ) ^ 2 := by positivity
      linarith

/-- C3 counterexample: the convergence snap of `animateCamera` has no
`radius > 0` guard, so a zero-length camera-to-target offset produces a NaN
polar angle (modelled as `none`) — the claim that all three sites are
guarded is false at this site. -/
theorem convergenceSnap_nan_at_zero_offset :
    (convergenceSnapSpherical 0 0 0).phi = none := by
  show convergenceSnapPhi 0 0 0 = none
  unfold convergenceSnapPhi
  rw [if_pos offsetRadius_zero]

/-- C3 (amended): the spherical-angle computations at orbit drag start
(mouse and touch) and at the two animation/mode-switch seeding sites are
guarded against a zero-length offset (keeping the previous state, or using
the fixed fallbacks `(1, π/2, 0)` and `(1, π/4, π/4)`), and for nonzero
offsets the convergence snap produces a well-defined polar angle; but the
convergence snap itself is unguarded and yields a NaN polar angle on a
zero-length offset. -/
theorem sphericalSeeds_guarded_but_snap_unguarded (prev : Spherical)
    (x y z : ℚ) :
    onMouseDownSeed prev 0 0 0 = prev ∧
    onTouchStartSeed prev 0 0 0 = prev ∧
    setViewAngleSeed 0 0 0 = ⟨1, Real.pi / 2, 0⟩ ∧
    animateFallbackSeed 0 0 0 = ⟨1, Real.pi / 4, Real.pi / 4⟩ ∧
    (convergenceSnapSpherical 0 0 0).phi = none ∧
    (¬(x = 0 ∧ y = 0 ∧ z = 0) →
      (convergenceSnapSpherical x y z).phi ≠ none) := by
  refine ⟨?_, ?_, ?_, ?_, ?_, ?_⟩
  · unfold onMouseDownSeed
    rw [offsetRadius_zero, if_neg (lt_irrefl 0)]
  · unfold onTouchStartSeed
    rw [offsetRadius_zero, if_neg (lt_irrefl 0)]
  · unfold setViewAngleSeed
    rw [offsetRadius_zero, if_neg (lt_irrefl 0)]
  · unfold animateFallbackSeed
    rw [offsetRadius_zero, if_neg (lt_irrefl 0)]
  · show convergenceSnapPhi 0 0 0 = none
    unfold convergenceSnapPhi
    rw [if_pos offsetRadius_zero]
  · intro hne
    show convergenceSnapPhi x y z ≠ none
    unfold convergenceSnapPhi
    rw [if_neg (ne_of_gt (offsetRadius_pos_of_ne_zero x y z hne))]
    exact Option.some_ne_none _

/-- C3 witness: concrete previous state and a concrete nonzero offset. -/
theorem sphericalSeeds_witness :
    onMouseDownSeed ⟨2, 3, 4⟩ 0 0 0 = ⟨2, 3, 4⟩ ∧
    onTouchStartSeed ⟨2, 3, 4⟩ 0 0 0 = ⟨2, 3, 4⟩ ∧
    setViewAngleSeed 0 0 0 = ⟨1, Real.pi / 2, 0⟩ ∧
    animateFallbackSeed 0 0 0 = ⟨1, Real.pi / 4, Real.pi / 4⟩ ∧
    (convergenceSnapSpherical 0 0 0).phi = none ∧
    (convergenceSnapSpherical 1 0 0).phi ≠ none := by
  have h := sphericalSeeds_guarded_but_snap_unguarded ⟨2, 3, 4⟩ 1 0 0
  exact ⟨h.1, h.2.1, h.2.2.1, h.2.2.2.1, h.2.2.2.2.1,
    h.2.2.2.2.2 (by simp)⟩

/-! ## C10 -/

/-- Sorting string lists with the lexicographic order is invariant under
permutation of the input. -/
theorem mergeSort_eq_of_perm_str (l l' : List String) (h : l.Perm l') :
    l.mergeSort (fun a b => decide (a ≤ b)) =
    l'.mergeSort (fun a b => decide (a ≤ b)) := by
  have htrans : ∀ a b c : String, (fun a b => decide (a ≤ b)) a b = true →
      (fun a b => decide (a ≤ b)) b c = true →
      (fun a b => decide (a ≤ b)) a c = true := by
    intro a b c hab hbc
    simp only [decide_eq_true_eq] at *
    exact le_trans hab hbc
  have htotal : ∀ a b : String,
      ((fun a b => decide (a ≤ b)) a b ||
        (fun a b => decide (a ≤ b)) b a) = true := by
    intro a b
    simp only [Bool.or_eq_true, decide_eq_true_eq]
    exact le_total a b
  have hs1 : List.Sorted (fun a b : String => a ≤ b)
      (l.mergeSort (fun a b => decide (a ≤ b))) :=
    List.Pairwise.imp (fun hab => of_decide_eq_true hab)
      (@List.sorted_mergeSort String (fun a b => decide (a ≤ b)) htrans htotal l)
  have hs2 : List.Sorted (fun a b : String => a ≤ b)
      (l'.mergeSort (fun a b => decide (a ≤ b))) :=
    List.Pairwise.imp (fun hab => of_decide_eq_true hab)
      (@List.sorted_mergeSort String (fun a b => decide (a ≤ b)) htrans htotal l')
  have hperm : (l.mergeSort (fun a b => decide (a ≤ b))).Perm
      (l'.mergeSort (fun a b => decide (a ≤ b))) :=
    ((List.mergeSort_perm l _).trans h).trans (List.mergeSort_perm l' _).symm
  exact @List.eq_of_perm_of_sorted String (fun a b => a ≤ b) inferInstance _ _
    hperm hs1 hs2

/-- `generateScreensHash` is invariant under permutation of the screens
array: the per-screen signatures are sorted before joining. -/
theorem generateScreensHash_perm (l l' : List ScreenData) (h : l.Perm l') :
    generateScreensHash l = generateScreensHash l' := by
  cases l with
  | nil =>
    have h0 : l' = [] := h.symm.eq_nil
    subst h0
    rfl
  | cons a as =>
    have hne : l'.isEmpty = false := by
      cases l' with
      | nil => exact absurd h.eq_nil (List.cons_ne_nil a as)
      | cons b bs => rfl
    unfold generateScreensHash
    rw [hne]
    simp only [List.isEmpty_cons, Bool.false_eq_true, if_false]
    exact congrArg (String.intercalate "|")
      (mergeSort_eq_of_perm_str _ _ (h.map screenSignature))

/-- `hasThemeChanged` always leaves the cached theme synchronised. -/
theorem hasThemeChanged_snd (st : VisState) (th : Bool) :
    (hasThemeChanged st th).2 = { st with lastTheme := th } := by
  simp only [hasThemeChanged]
  split_ifs with h
  · rfl
  · simp only [bne_iff_ne, ne_eq, not_not] at h
    cases st
    simp_all

/-- `hasDistanceChanged` always leaves the cached distance hash
synchronised and touches nothing else. -/
theorem hasDistanceChanged_snd (d : ℚ) (st : VisState)
    (l : List ScreenData) :
    (hasDistanceChanged d st l).2 =
      { st with lastDistanceHash := some (calculateDistanceHash d l) } := by
  simp only [hasDistanceChanged]
  split_ifs with h
  · rfl
  · simp only [bne_iff_ne, ne_eq, not_not] at h
    cases st
    simp_all

/-- After `hasScreenDataChanged`, the cached hash, canvas size and theme
are synchronised with the call's arguments, and the distance hash is
untouched. -/
theorem hasScreenDataChanged_state (st : VisState) (l : List ScreenData)
    (w h : ℕ) (th : Bool) :
    (hasScreenDataChanged st l w h th).2.lastScreensHash =
      some (generateScreensHash l) ∧
    (hasScreenDataChanged st l w h th).2.lastCanvasW = w ∧
    (hasScreenDataChanged st l w h th).2.lastCanvasH = h ∧
    (hasScreenDataChanged st l w h th).2.lastTheme = th ∧
    (hasScreenDataChanged st l w h th).2.lastDistanceHash =
      st.lastDistanceHash := by
  simp only [hasScreenDataChanged]
  split_ifs with h1
  · simp [hasThemeChanged_snd]
  · simp only [Bool.or_eq_true, bne_iff_ne, ne_eq, decide_eq_true_eq,
      not_or, not_not] at h1
    obtain ⟨⟨hhash, hw, hh⟩, htc⟩ := h1
    simp [hasThemeChanged_snd, hhash, hw, hh]

/-- When the cached hash, canvas size and theme already match,
`hasScreenDataChanged` reports no change. -/
theorem hasScreenDataChanged_fst_false (st : VisState) (l : List ScreenData)
    (w h : ℕ) (th : Bool)
    (h1 : st.lastScreensHash = some (generateScreensHash l))
    (h2 : st.lastCanvasW = w) (h3 : st.lastCanvasH = h)
    (h4 : st.lastTheme = th) :
    (hasScreenDataChanged st l w h th).1 = false := by
  simp only [hasScreenDataChanged]
  split_ifs with hc
  · simp [hasThemeChanged, h1, h2, h3, h4] at hc
  · rfl

/-- After any `updateScreens` call the cached state is fully synchronised
with that call's screens, canvas size and theme. -/
theorem updateScreens_state (d : ℚ) (st : VisState) (l : List ScreenData)
    (w h : ℕ) (th : Bool) :
    (updateScreens d st l w h th).state.lastScreensHash =
      some (generateScreensHash l) ∧
    (updateScreens d st l w h th).state.lastCanvasW = w ∧
    (updateScreens d st l w h th).state.lastCanvasH = h ∧
    (updateScreens d st l w h th).state.lastTheme = th ∧
    (updateScreens d st l w h th).state.lastDistanceHash =
      some (calculateDistanceHash d l) := by
  have hd := hasDistanceChanged_snd d st l
  have hs := hasScreenDataChanged_state (hasDistanceChanged d st l).2 l w h th
  exact ⟨hs.1, hs.2.1, hs.2.2.1, hs.2.2.2.1, by
    show (hasScreenDataChanged (hasDistanceChanged d st l).2 l w h
      th).2.lastDistanceHash = some (calculateDistanceHash d l)
    rw [hs.2.2.2.2, hd]⟩

/-- C10: `generateScreensHash` is invariant under permutation of the
screens array, so a second `updateScreens` call with any reordering of the
same screen list — canvas size and theme unchanged — is treated as
unchanged and skips the geometry rebuild. -/
theorem screensHash_perm_invariant_skips_rebuild (d : ℚ)
    (l l' : List ScreenData) (hperm : l.Perm l') :
    generateScreensHash l = generateScreensHash l' ∧
    ∀ (st : VisState) (w h : ℕ) (th : Bool),
      (updateScreens d (updateScreens d st l w h th).state l' w h
        th).rebuiltGeometry = false := by
  have hhash := generateScreensHash_perm l l' hperm
  refine ⟨hhash, ?_⟩
  intro st w h th
  have h1 := updateScreens_state d st l w h th
  have hd2 := hasDistanceChanged_snd d (updateScreens d st l w h th).state l'
  show (hasScreenDataChanged
    (hasDistanceChanged d (updateScreens d st l w h th).state l').2 l' w h
    th).1 = false
  apply hasScreenDataChanged_fst_false
  · rw [hd2]
    show (updateScreens d st l w h th).state.lastScreensHash =
      some (generateScreensHash l')
    rw [h1.1, hhash]
  · rw [hd2]
    exact h1.2.1
  · rw [hd2]
    exact h1.2.2.1
  · rw [hd2]
    exact h1.2.2.2.1

/-- C10 witness: swapping two concrete screens skips the rebuild. -/
theorem screensHash_perm_witness :
    generateScreensHash [screen600, screen900] =
      generateScreensHash [screen900, screen600] ∧
    (updateScreens 800 (updateScreens 800 ⟨none, 800, 400, false, none⟩
      [screen600, screen900] 800 400 false).state
      [screen900, screen600] 800 400 false).rebuiltGeometry = false := by
  have hperm : ([screen600, screen900]).Perm [screen900, screen600] :=
    List.Perm.swap screen900 screen600 []
  exact ⟨(screensHash_perm_invariant_skips_rebuild 800 _ _ hperm).1,
    (screensHash_perm_invariant_skips_rebuild 800 _ _ hperm).2
      ⟨none, 800, 400, false, none⟩ 800 400 false⟩

end ScreenVis3D
